import Mathlib

/-!
Shallow embedding of the PyShiny live-temperature dashboard (`src/app.py`)
and proofs of the specification's testable properties.

Python floats are modelled as rationals, `random.uniform(-18, -16)` as an
arbitrary rational draw in the interval, timestamps as strings, and the
`deque(maxlen=DEQUE_SIZE)` buffer as a list that keeps its most recent
elements.  `scipy.stats.linregress` is embedded by its mean/deviation
formulas (slope = sum of deviation products / sum of squared x deviations,
intercept = ymean - slope * xmean), exactly as SciPy computes it.
-/

/-- Python's `round` to the nearest integer, ties to even (banker's rounding). -/
def roundHalfEven (q : ℚ) : ℤ :=
  if q - ⌊q⌋ < 1/2 then ⌊q⌋
  else if 1/2 < q - ⌊q⌋ then ⌊q⌋ + 1
  else if ⌊q⌋ % 2 = 0 then ⌊q⌋ else ⌊q⌋ + 1

/-- Python's `round(x, 1)`: round to one decimal place. -/
def round1 (q : ℚ) : ℚ := (roundHalfEven (10 * q) : ℚ) / 10

/-- One sampled reading: `{"temp": temp, "timestamp": timestamp}` (app.py line 68). -/
structure Reading where
  temp : ℚ
  timestamp : String
deriving DecidableEq

/-- Window capacity (app.py line 47). -/
def DEQUE_SIZE : ℕ := 5

/-- Appending to a `deque(maxlen=cap)`: the new element goes to the end and,
if the length would exceed `cap`, the oldest elements are dropped from the front. -/
def dequeAppend (cap : ℕ) (xs : List Reading) (r : Reading) : List Reading :=
  (xs ++ [r]).drop (xs.length + 1 - cap)

/-- A sequence of appends to the bounded deque. -/
def appendAll (cap : ℕ) (xs : List Reading) (rs : List Reading) : List Reading :=
  rs.foldl (dequeAppend cap) xs

/-- The reading built on one tick of `reactive_calc_combined` (app.py lines 66-68):
temperature `round(random.uniform(-18, -16), 1)` for a draw `u`, with timestamp `now`. -/
def sampled_reading (u : ℚ) (now : String) : Reading :=
  Reading.mk (round1 u) now

/-- One tick of `reactive_calc_combined` (app.py lines 60-84): append the new
reading to the deque and return (new deque, snapshot rows, latest entry). -/
def reactive_calc_combined (state : List Reading) (u : ℚ) (now : String) :
    List Reading × List Reading × Reading :=
  let entry := sampled_reading u now
  let newState := dequeAppend DEQUE_SIZE state entry
  (newState, newState, entry)

/-- Mean of the x values 0, 1, ..., n-1 used by `linregress`. -/
def xmean (n : ℕ) : ℚ := (∑ i in Finset.range n, (i : ℚ)) / n

/-- Mean of the y values. -/
def ymean (n : ℕ) (y : ℕ → ℚ) : ℚ := (∑ i in Finset.range n, y i) / n

/-- Sum of squared deviations of the x values. -/
def ssxm (n : ℕ) : ℚ := ∑ i in Finset.range n, ((i : ℚ) - xmean n) ^ 2

/-- Sum of products of deviations of x and y. -/
def ssxym (n : ℕ) (y : ℕ → ℚ) : ℚ :=
  ∑ i in Finset.range n, ((i : ℚ) - xmean n) * (y i - ymean n y)

/-- Slope as computed by `scipy.stats.linregress` on x = 0..n-1. -/
def linregressSlope (n : ℕ) (y : ℕ → ℚ) : ℚ := ssxym n y / ssxm n

/-- Intercept as computed by `scipy.stats.linregress` on x = 0..n-1. -/
def linregressIntercept (n : ℕ) (y : ℕ → ℚ) : ℚ :=
  ymean n y - linregressSlope n y * xmean n

/-- The predictor `predicted_temp` (app.py lines 92-104): `None` when the window
has fewer than 2 rows, otherwise the linregress fit over indices vs temperature
extrapolated one step ahead and rounded to one decimal. -/
def predicted_temp (temps : List ℚ) : Option ℚ :=
  if temps.length < 2 then none
  else
    some (round1 (linregressSlope temps.length (fun i => temps.getD i 0) * (temps.length : ℚ)
      + linregressIntercept temps.length (fun i => temps.getD i 0)))

/-- Spec-side definition, following the spec's words: ordinary-least-squares
slope over the pairs (0, y 0) .. (n-1, y (n-1)), in the independent
closed form (n * Sxy - Sx * Sy) / (n * Sxx - Sx^2). -/
def olsSlopeSpec (n : ℕ) (y : ℕ → ℚ) : ℚ :=
  ((n : ℚ) * (∑ i in Finset.range n, (i : ℚ) * y i)
      - (∑ i in Finset.range n, (i : ℚ)) * (∑ i in Finset.range n, y i)) /
    ((n : ℚ) * (∑ i in Finset.range n, (i : ℚ) ^ 2) - (∑ i in Finset.range n, (i : ℚ)) ^ 2)

/-- Spec-side definition: OLS intercept, (Sy - slope * Sx) / n. -/
def olsInterceptSpec (n : ℕ) (y : ℕ → ℚ) : ℚ :=
  ((∑ i in Finset.range n, y i) - olsSlopeSpec n y * (∑ i in Finset.range n, (i : ℚ))) / n

/-- Spec-side definition: the OLS one-step extrapolation computed independently,
`slope * n + intercept` rounded to one decimal, no prediction below 2 points. -/
def olsPredictSpec (temps : List ℚ) : Option ℚ :=
  if temps.length < 2 then none
  else
    some (round1 (olsSlopeSpec temps.length (fun i => temps.getD i 0) * (temps.length : ℚ)
      + olsInterceptSpec temps.length (fun i => temps.getD i 0)))

/-- The theme chooser `get_temp_gradient` (app.py lines 106-114); its argument is
`None` or a temperature. -/
def get_temp_gradient (temp : Option ℚ) : String :=
  match temp with
  | none => "bg-gradient-gray-white"
  | some t =>
      if t ≥ -16.2 then "bg-gradient-orange-red"
      else if t ≥ -17.0 then "bg-gradient-yellow-orange"
      else "bg-gradient-blue-purple"

/-- The predicted-value box built by `dynamic_predicted_value_box`
(app.py lines 184-209): whether it shows the no-data message, its note text,
and its gradient theme. -/
structure PredictedBox where
  showsNoData : Bool
  note : String
  theme : String
deriving DecidableEq

/-- The value box rendered from a prediction (app.py lines 184-209). -/
def dynamic_predicted_value_box (temp : Option ℚ) : PredictedBox :=
  match temp with
  | none => PredictedBox.mk true "Not enough data to predict" (get_temp_gradient none)
  | some t =>
      PredictedBox.mk false
        (if t > -17.0 then "↑ Warming trend"
         else if t < -17.5 then "↓ Cooling trend"
         else "Stable trend")
        (get_temp_gradient (some t))

/-- The pandas DataFrame shared by the render functions within one reactive
cycle: its temperature and timestamp rows, whether `pd.to_datetime` has been
applied to the timestamp column in place, and the derived columns the chart
renders assign in place (app.py lines 237, 251, 277, 291). -/
structure DataFrame where
  temps : List ℚ
  timestamps : List String
  timestampsParsed : Bool
  bestFitLine : Option (List ℚ)
  trendLine : Option (List ℚ)
deriving DecidableEq

/-- A chart specification as built by the plotly renders: x values, y values,
and the fitted line overlay. -/
structure Figure where
  xs : List String
  ys : List ℚ
  fitted : List ℚ
deriving DecidableEq

/-- The fitted-line column `[slope * x + intercept for x in x_vals]`. -/
def bestFit (n : ℕ) (y : ℕ → ℚ) : List ℚ :=
  (List.range n).map (fun x => linregressSlope n y * (x : ℚ) + linregressIntercept n y)

/-- The scatter render `display_plot` (app.py lines 232-267): on an empty frame
it returns nothing and leaves the frame alone; otherwise it parses the
timestamp column in place, assigns the `best_fit_line` column in place, and
returns the figure.  The second component is the DataFrame object after the
call, since the assignments mutate the shared frame. -/
def display_plot (df : DataFrame) : Option Figure × DataFrame :=
  if df.temps.isEmpty then (none, df)
  else
    (some (Figure.mk df.timestamps df.temps
        (bestFit df.temps.length (fun i => df.temps.getD i 0))),
      DataFrame.mk df.temps df.timestamps true
        (some (bestFit df.temps.length (fun i => df.temps.getD i 0))) df.trendLine)

/-- The bar-chart render `display_bar_chart` (app.py lines 272-308): same shape
as `display_plot` but it assigns the `trend_line` column in place. -/
def display_bar_chart (df : DataFrame) : Option Figure × DataFrame :=
  if df.temps.isEmpty then (none, df)
  else
    (some (Figure.mk df.timestamps df.temps
        (bestFit df.temps.length (fun i => df.temps.getD i 0))),
      DataFrame.mk df.temps df.timestamps true df.bestFitLine
        (some (bestFit df.temps.length (fun i => df.temps.getD i 0))))

/-- A Python reference to the one deque object created at app.py line 48; the
app never replaces it, so there is a single live object. -/
inductive DequeRef where
  | live
deriving DecidableEq

/-- The process state: the contents of the single deque object. -/
structure AppState where
  deque : List Reading
deriving DecidableEq

/-- Calling `reactive_value_wrapper.get()` (app.py lines 71 and 74) returns a
reference to the live deque object, not a copy of its contents. -/
def reactive_value_get (_s : AppState) : DequeRef := DequeRef.live

/-- Dereferencing a deque reference reads the current contents of the object
it points to. -/
def readRef (s : AppState) (ref : DequeRef) : List Reading :=
  match ref with
  | DequeRef.live => s.deque

/-- `reactive_value_wrapper.get().append(entry)` mutates the referenced deque. -/
def appendRef (s : AppState) (ref : DequeRef) (r : Reading) : AppState :=
  match ref with
  | DequeRef.live => AppState.mk (dequeAppend DEQUE_SIZE s.deque r)

/-- One tick of the data step of `reactive_calc_combined` (app.py lines 71-74):
append the new entry through the wrapper, then take the snapshot
`deque_snapshot = reactive_value_wrapper.get()`. -/
def tick_append_snapshot (s : AppState) (r : Reading) : AppState × DequeRef :=
  (appendRef s (reactive_value_get s) r,
    reactive_value_get (appendRef s (reactive_value_get s) r))

/-! Helper lemmas. -/

lemma ssxym_mul (n : ℕ) (y : ℕ → ℚ) (hn : (n : ℚ) ≠ 0) :
    (n : ℚ) * ssxym n y =
      (n : ℚ) * (∑ i in Finset.range n, (i : ℚ) * y i)
        - (∑ i in Finset.range n, (i : ℚ)) * (∑ i in Finset.range n, y i) := by
  have expand : ∀ i ∈ Finset.range n,
      ((i : ℚ) - xmean n) * (y i - ymean n y)
        = (i : ℚ) * y i - xmean n * y i - ymean n y * (i : ℚ) + xmean n * ymean n y := by
    intro i _
    ring
  rw [ssxym, Finset.sum_congr rfl expand]
  rw [Finset.sum_add_distrib, Finset.sum_sub_distrib, Finset.sum_sub_distrib,
    ← Finset.mul_sum, ← Finset.mul_sum, Finset.sum_const, Finset.card_range, nsmul_eq_mul]
  rw [xmean, ymean]
  field_simp
  ring

lemma ssxm_mul (n : ℕ) (hn : (n : ℚ) ≠ 0) :
    (n : ℚ) * ssxm n =
      (n : ℚ) * (∑ i in Finset.range n, (i : ℚ) ^ 2) - (∑ i in Finset.range n, (i : ℚ)) ^ 2 := by
  have expand : ∀ i ∈ Finset.range n,
      ((i : ℚ) - xmean n) ^ 2
        = (i : ℚ) ^ 2 - 2 * xmean n * (i : ℚ) + xmean n ^ 2 := by
    intro i _
    ring
  rw [ssxm, Finset.sum_congr rfl expand]
  rw [Finset.sum_add_distrib, Finset.sum_sub_distrib,
    ← Finset.mul_sum, Finset.sum_const, Finset.card_range, nsmul_eq_mul]
  rw [xmean]
  field_simp
  ring

lemma olsSlopeSpec_eq (n : ℕ) (y : ℕ → ℚ) (hn : (n : ℚ) ≠ 0) :
    olsSlopeSpec n y = linregressSlope n y := by
  rw [olsSlopeSpec, linregressSlope, ← ssxym_mul n y hn, ← ssxm_mul n hn,
    mul_div_mul_left _ _ hn]

lemma olsInterceptSpec_eq (n : ℕ) (y : ℕ → ℚ) (hn : (n : ℚ) ≠ 0) :
    olsInterceptSpec n y = linregressIntercept n y := by
  rw [olsInterceptSpec, linregressIntercept, olsSlopeSpec_eq n y hn, ymean, xmean]
  field_simp

/-! The claims. -/

/-- C1: for every window of length at least 2, the predictor's output equals
the ordinary-least-squares one-step extrapolation computed independently from
the closed-form OLS slope and intercept over (0, temp 0) .. (n-1, temp (n-1)),
returning slope * n + intercept rounded to one decimal. -/
theorem predicted_matches_ols_spec (temps : List ℚ) (h : 2 ≤ temps.length) :
    predicted_temp temps = olsPredictSpec temps := by
  have hn : ((temps.length : ℕ) : ℚ) ≠ 0 := Nat.cast_ne_zero.mpr (by omega)
  rw [predicted_temp, olsPredictSpec, if_neg (by omega), if_neg (by omega),
    olsSlopeSpec_eq _ _ hn, olsInterceptSpec_eq _ _ hn]

/-- Witness for C1 at the concrete window [1, 2]. -/
theorem predicted_matches_ols_spec_witness :
    2 ≤ ([(1 : ℚ), 2]).length ∧ predicted_temp [1, 2] = olsPredictSpec [1, 2] :=
  ⟨by decide, predicted_matches_ols_spec [1, 2] (by decide)⟩

lemma dequeAppend_length (cap : ℕ) (xs : List Reading) (r : Reading) :
    (dequeAppend cap xs r).length = min (xs.length + 1) cap := by
  simp [dequeAppend]
  omega

lemma appendAll_cons (cap : ℕ) (xs : List Reading) (r : Reading) (rs : List Reading) :
    appendAll cap xs (r :: rs) = appendAll cap (dequeAppend cap xs r) rs := rfl

lemma appendAll_length_le (cap : ℕ) (rs : List Reading) (xs : List Reading)
    (h : xs.length ≤ cap) : (appendAll cap xs rs).length ≤ cap := by
  induction rs generalizing xs with
  | nil => simpa [appendAll] using h
  | cons r rs ih =>
      rw [appendAll_cons]
      exact ih _ (by rw [dequeAppend_length]; omega)

lemma dequeAppend_getLast (xs : List Reading) (r : Reading) :
    (dequeAppend DEQUE_SIZE xs r).getLast? = some r := by
  rw [dequeAppend, List.drop_append_of_le_length (by unfold DEQUE_SIZE; omega)]
  simp

lemma le_roundHalfEven (c : ℤ) (q : ℚ) (h : (c : ℚ) ≤ q) : c ≤ roundHalfEven q := by
  have hf : c ≤ ⌊q⌋ := Int.le_floor.mpr h
  unfold roundHalfEven
  split_ifs <;> omega

lemma roundHalfEven_le (c : ℤ) (q : ℚ) (h : q ≤ c) : roundHalfEven q ≤ c := by
  have hf : ⌊q⌋ ≤ c := le_trans (Int.floor_le_floor h) (le_of_eq (Int.floor_intCast c))
  have hfow : (⌊q⌋ : ℚ) ≤ q := Int.floor_le q
  unfold roundHalfEven
  split_ifs with h1 h2 h3
  · exact hf
  · push_neg at h1
    have hlt : (⌊q⌋ : ℚ) < c := by linarith
    have : ⌊q⌋ < c := by exact_mod_cast hlt
    omega
  · exact hf
  · push_neg at h1
    have hlt : (⌊q⌋ : ℚ) < c := by linarith
    have : ⌊q⌋ < c := by exact_mod_cast hlt
    omega

lemma display_plot_fst (df df' : DataFrame) (ht : df.temps = df'.temps)
    (hs : df.timestamps = df'.timestamps) :
    (display_plot df).1 = (display_plot df').1 := by
  simp only [display_plot]
  rw [ht, hs]
  by_cases h : df'.temps.isEmpty <;> simp [h]

lemma display_bar_chart_fst (df df' : DataFrame) (ht : df.temps = df'.temps)
    (hs : df.timestamps = df'.timestamps) :
    (display_bar_chart df).1 = (display_bar_chart df').1 := by
  simp only [display_bar_chart]
  rw [ht, hs]
  by_cases h : df'.temps.isEmpty <;> simp [h]

lemma display_plot_snd_temps (df : DataFrame) : (display_plot df).2.temps = df.temps := by
  by_cases h : df.temps.isEmpty <;> simp [display_plot, h]

lemma display_plot_snd_timestamps (df : DataFrame) :
    (display_plot df).2.timestamps = df.timestamps := by
  by_cases h : df.temps.isEmpty <;> simp [display_plot, h]

/-- C2: for every window with fewer than 2 points the predictor returns no
prediction (`None`), and the rendered value box reports this to the user as
"Not enough data to predict" rather than failing. -/
theorem insufficient_data_reported (temps : List ℚ) (h : temps.length < 2) :
    predicted_temp temps = none ∧
    (dynamic_predicted_value_box (predicted_temp temps)).showsNoData = true ∧
    (dynamic_predicted_value_box (predicted_temp temps)).note = "Not enough data to predict" := by
  have hp : predicted_temp temps = none := by rw [predicted_temp, if_pos h]
  refine ⟨hp, ?_, ?_⟩ <;> rw [hp] <;> rfl

/-- Witness for C2 at the singleton window [1]. -/
theorem insufficient_data_reported_witness :
    ([(1 : ℚ)]).length < 2 ∧
    (predicted_temp [1] = none ∧
      (dynamic_predicted_value_box (predicted_temp [1])).showsNoData = true ∧
      (dynamic_predicted_value_box (predicted_temp [1])).note = "Not enough data to predict") :=
  ⟨by decide, insufficient_data_reported [1] (by decide)⟩

/-- C3: the history window never holds more than `DEQUE_SIZE` (5) readings, and
eviction is FIFO: after appending 6 readings to an empty window, the window
holds exactly the most recent 5 in arrival order, and the first appended
reading (when it does not recur among the others) is absent. -/
theorem history_capacity_fifo (xs rs : List Reading) (hxs : xs.length ≤ DEQUE_SIZE)
    (r1 r2 r3 r4 r5 r6 : Reading) :
    (appendAll DEQUE_SIZE xs rs).length ≤ DEQUE_SIZE ∧
    appendAll DEQUE_SIZE [] [r1, r2, r3, r4, r5, r6] = [r2, r3, r4, r5, r6] ∧
    (r1 ∉ ([r2, r3, r4, r5, r6] : List Reading) →
      r1 ∉ appendAll DEQUE_SIZE [] [r1, r2, r3, r4, r5, r6]) := by
  have hfifo : appendAll DEQUE_SIZE [] [r1, r2, r3, r4, r5, r6] = [r2, r3, r4, r5, r6] := rfl
  exact ⟨appendAll_length_le _ _ _ hxs, hfifo, fun hmem => by rw [hfifo]; exact hmem⟩

/-- Witness for C3 at the empty window and six concrete readings. -/
theorem history_capacity_fifo_witness :
    ([] : List Reading).length ≤ DEQUE_SIZE ∧
    ((appendAll DEQUE_SIZE ([] : List Reading) []).length ≤ DEQUE_SIZE ∧
      appendAll DEQUE_SIZE []
          [Reading.mk 1 "a", Reading.mk 2 "b", Reading.mk 3 "c",
            Reading.mk 4 "d", Reading.mk 5 "e", Reading.mk 6 "f"]
        = [Reading.mk 2 "b", Reading.mk 3 "c", Reading.mk 4 "d",
            Reading.mk 5 "e", Reading.mk 6 "f"] ∧
      (Reading.mk 1 "a" ∉
          ([Reading.mk 2 "b", Reading.mk 3 "c", Reading.mk 4 "d",
            Reading.mk 5 "e", Reading.mk 6 "f"] : List Reading) →
        Reading.mk 1 "a" ∉ appendAll DEQUE_SIZE []
          [Reading.mk 1 "a", Reading.mk 2 "b", Reading.mk 3 "c",
            Reading.mk 4 "d", Reading.mk 5 "e", Reading.mk 6 "f"])) :=
  ⟨by decide, history_capacity_fifo [] [] (by decide)
    (Reading.mk 1 "a") (Reading.mk 2 "b") (Reading.mk 3 "c")
    (Reading.mk 4 "d") (Reading.mk 5 "e") (Reading.mk 6 "f")⟩

/-- C4: concrete scenario with capacity 5: appending 6 readings with
temperatures [1, 2, 3, 4, 5, 6] leaves the window holding temperatures
[2, 3, 4, 5, 6], and the predictor then returns the OLS fit of
(0, 2) .. (4, 6) extrapolated to x = 5, namely 7.0. -/
theorem scenario_six_readings :
    (appendAll DEQUE_SIZE []
        [Reading.mk 1 "t0", Reading.mk 2 "t1", Reading.mk 3 "t2",
          Reading.mk 4 "t3", Reading.mk 5 "t4", Reading.mk 6 "t5"]).map Reading.temp
      = [2, 3, 4, 5, 6] ∧
    predicted_temp ((appendAll DEQUE_SIZE []
        [Reading.mk 1 "t0", Reading.mk 2 "t1", Reading.mk 3 "t2",
          Reading.mk 4 "t3", Reading.mk 5 "t4", Reading.mk 6 "t5"]).map Reading.temp)
      = some 7 := by
  constructor
  · rfl
  · show predicted_temp [2, 3, 4, 5, 6] = some 7
    norm_num [predicted_temp, linregressSlope, linregressIntercept, ssxym, ssxm, xmean, ymean,
      Finset.sum_range_succ, round1, roundHalfEven]

/-- C5: round-trip: for every history state, appending a reading and
immediately taking a snapshot yields a sequence whose last element is that
reading. -/
theorem append_snapshot_last (xs : List Reading) (r : Reading) :
    (dequeAppend DEQUE_SIZE xs r).getLast? = some r :=
  dequeAppend_getLast xs r

/-- C6: every reading produced by the sampler from a uniform draw in
[-18, -16] has a temperature in [-18, -16] that is a whole number of tenths,
together with the supplied current timestamp. -/
theorem sampler_in_range (u : ℚ) (now : String) (h1 : -18 ≤ u) (h2 : u ≤ -16) :
    -18 ≤ (sampled_reading u now).temp ∧ (sampled_reading u now).temp ≤ -16 ∧
    (sampled_reading u now).timestamp = now ∧
    ∃ k : ℤ, (sampled_reading u now).temp = (k : ℚ) / 10 := by
  have hlow : (-180 : ℤ) ≤ roundHalfEven (10 * u) :=
    le_roundHalfEven _ _ (by push_cast; linarith)
  have hhigh : roundHalfEven (10 * u) ≤ (-160 : ℤ) :=
    roundHalfEven_le _ _ (by push_cast; linarith)
  have hlowq : ((-180 : ℤ) : ℚ) ≤ (roundHalfEven (10 * u) : ℚ) := by exact_mod_cast hlow
  have hhighq : ((roundHalfEven (10 * u) : ℤ) : ℚ) ≤ ((-160 : ℤ) : ℚ) := by exact_mod_cast hhigh
  refine ⟨?_, ?_, rfl, ⟨roundHalfEven (10 * u), rfl⟩⟩
  · simp only [sampled_reading, round1]
    push_cast at hlowq
    linarith
  · simp only [sampled_reading, round1]
    push_cast at hhighq
    linarith

/-- Witness for C6 at the draw -17 with timestamp "now". -/
theorem sampler_in_range_witness :
    (-18 ≤ (-17 : ℚ)) ∧ ((-17 : ℚ) ≤ -16) ∧
    (-18 ≤ (sampled_reading (-17) "now").temp ∧
      (sampled_reading (-17) "now").temp ≤ -16 ∧
      (sampled_reading (-17) "now").timestamp = "now" ∧
      ∃ k : ℤ, (sampled_reading (-17) "now").temp = (k : ℚ) / 10) :=
  ⟨by norm_num, by norm_num, sampler_in_range (-17) "now" (by norm_num) (by norm_num)⟩

/-- C7: the predictor is deterministic given the window's contents: two windows
with the same length and the same temperature at every index yield the same
prediction. -/
theorem predictor_deterministic (t1 t2 : List ℚ) (hlen : t1.length = t2.length)
    (hval : ∀ i, t1.getD i 0 = t2.getD i 0) :
    predicted_temp t1 = predicted_temp t2 := by
  have heq : t1 = t2 := by
    apply List.ext_get hlen
    intro n hn1 hn2
    have h := hval n
    rwa [List.getD_eq_getElem t1 0 hn1, List.getD_eq_getElem t2 0 hn2] at h
  rw [heq]

/-- Witness for C7 at two copies of the window [1, 2]. -/
theorem predictor_deterministic_witness :
    ([(1 : ℚ), 2]).length = ([(1 : ℚ), 2]).length ∧
    (∀ i, ([(1 : ℚ), 2]).getD i 0 = ([(1 : ℚ), 2]).getD i 0) ∧
    predicted_temp [1, 2] = predicted_temp [1, 2] :=
  ⟨rfl, fun _ => rfl, predictor_deterministic [1, 2] [1, 2] rfl (fun _ => rfl)⟩

/-- C8 counterexample: rendering the scatter plot on the two-row frame with
unparsed timestamps and no derived columns changes the shared DataFrame, so a
render call does change the data that later render calls observe. -/
theorem render_mutates_shared_df :
    (display_plot (DataFrame.mk [1, 2] ["a", "b"] false none none)).2
      ≠ DataFrame.mk [1, 2] ["a", "b"] false none none := by
  intro h
  have hp := congrArg DataFrame.timestampsParsed h
  simp [display_plot] at hp

/-- C8 amended: the figures built by the chart renders are pure functions of
the window rows (temperatures and timestamps) and re-rendering after a render
yields the same figure, but a render of the scatter plot mutates the shared
DataFrame in place: it marks the timestamp column parsed and assigns the
best-fit-line column whenever the frame is nonempty, while leaving the data
rows themselves unchanged. -/
theorem presentation_pure_output_but_mutates (df df' : DataFrame)
    (ht : df.temps = df'.temps) (hs : df.timestamps = df'.timestamps) :
    (display_plot df).1 = (display_plot df').1 ∧
    (display_bar_chart df).1 = (display_bar_chart df').1 ∧
    (display_plot (display_plot df).2).1 = (display_plot df).1 ∧
    (display_plot df).2.temps = df.temps ∧
    (display_plot df).2.timestamps = df.timestamps ∧
    (df.temps ≠ [] → (display_plot df).2.bestFitLine ≠ none) := by
  refine ⟨display_plot_fst df df' ht hs, display_bar_chart_fst df df' ht hs,
    display_plot_fst _ _ (display_plot_snd_temps df) (display_plot_snd_timestamps df),
    display_plot_snd_temps df, display_plot_snd_timestamps df, ?_⟩
  intro hne
  have h : df.temps.isEmpty = false := by
    simp [List.isEmpty_iff, hne]
  simp [display_plot, h]

/-- Witness for the amended C8 at the empty frame compared with itself. -/
theorem presentation_pure_output_but_mutates_witness :
    (DataFrame.mk [] [] false none none).temps = (DataFrame.mk [] [] false none none).temps ∧
    (DataFrame.mk [] [] false none none).timestamps
      = (DataFrame.mk [] [] false none none).timestamps ∧
    ((display_plot (DataFrame.mk [] [] false none none)).1
        = (display_plot (DataFrame.mk [] [] false none none)).1 ∧
      (display_bar_chart (DataFrame.mk [] [] false none none)).1
        = (display_bar_chart (DataFrame.mk [] [] false none none)).1 ∧
      (display_plot (display_plot (DataFrame.mk [] [] false none none)).2).1
        = (display_plot (DataFrame.mk [] [] false none none)).1 ∧
      (display_plot (DataFrame.mk [] [] false none none)).2.temps
        = (DataFrame.mk [] [] false none none).temps ∧
      (display_plot (DataFrame.mk [] [] false none none)).2.timestamps
        = (DataFrame.mk [] [] false none none).timestamps ∧
      ((DataFrame.mk [] [] false none none).temps ≠ [] →
        (display_plot (DataFrame.mk [] [] false none none)).2.bestFitLine ≠ none)) :=
  ⟨rfl, rfl, presentation_pure_output_but_mutates
    (DataFrame.mk [] [] false none none) (DataFrame.mk [] [] false none none) rfl rfl⟩

/-- C9: the snapshot taken on one tick is a reference to the live deque object,
not a copy: reading through that earlier snapshot after the next tick's append
yields the updated contents, whose last element is the reading appended after
the snapshot was taken. -/
theorem snapshot_alias_sees_later_append (s : AppState) (r1 r2 : Reading) :
    readRef (appendRef (tick_append_snapshot s r1).1
        (reactive_value_get (tick_append_snapshot s r1).1) r2)
      (tick_append_snapshot s r1).2
      = dequeAppend DEQUE_SIZE (readRef (tick_append_snapshot s r1).1
          (tick_append_snapshot s r1).2) r2 ∧
    (readRef (appendRef (tick_append_snapshot s r1).1
        (reactive_value_get (tick_append_snapshot s r1).1) r2)
      (tick_append_snapshot s r1).2).getLast? = some r2 := by
  refine ⟨rfl, ?_⟩
  exact dequeAppend_getLast _ _

/-- C10: `get_temp_gradient` is total and exhaustive: `None` maps to the gray
theme, and a temperature maps to orange-red iff it is at least -16.2, to
yellow-orange iff it is in [-17.0, -16.2), and to blue-purple iff it is below
-17.0, so exactly one of the four theme strings results in every case. -/
theorem temp_gradient_exhaustive (q : ℚ) :
    get_temp_gradient none = "bg-gradient-gray-white" ∧
    (get_temp_gradient (some q) = "bg-gradient-orange-red" ↔ -16.2 ≤ q) ∧
    (get_temp_gradient (some q) = "bg-gradient-yellow-orange" ↔ -17.0 ≤ q ∧ q < -16.2) ∧
    (get_temp_gradient (some q) = "bg-gradient-blue-purple" ↔ q < -17.0) ∧
    (get_temp_gradient (some q) = "bg-gradient-orange-red" ∨
      get_temp_gradient (some q) = "bg-gradient-yellow-orange" ∨
      get_temp_gradient (some q) = "bg-gradient-blue-purple") := by
  refine ⟨rfl, ?_, ?_, ?_, ?_⟩ <;>
    simp only [get_temp_gradient] <;> split_ifs with h1 h2 <;> simp_all <;> try linarith
